import Mathlib

set_option linter.unusedVariables false

/-!
Verification of the session-description offer/answer negotiation core of
this repository.  The repository ships the unit tests
(`pc/sdp_offer_answer_unittest.cc`); the implementation they exercise is
modelled here from the specification's data model (§3), the bundle and
simulcast validators (§4.1, §4.2), the section-identity manager (§4.3)
and the offer/answer state machine (§4.4), with behaviour at the tests'
concrete inputs matched against the tests' own assertions.
-/

/-- Modelled from the spec: codec identity attached to a payload-type
number (§3, `payload_type_table: mapping(payload_type_number →
codec_name+parameters)`).  Two codecs are the same identity exactly when
name, clock rate and format parameters agree. -/
structure Codec where
  name : String
  clockRate : Nat
  fmtp : String
deriving DecidableEq, Repr

/-- Modelled from the spec: `media_type` of a section ({audio, video,
application}, §3). -/
inductive MediaType where
  | audio
  | video
  | application
deriving DecidableEq, Repr

/-- Modelled from the spec: one `m=` block of a structured description
(§3 MediaSection): identifier (mid), media type, rejected flag, the
payload-type table, the header-extension table (extmap id → uri), the
ssrc groups, the declared ssrcs, the rid set and the simulcast flag. -/
structure MediaSection where
  mid : String
  mediaType : MediaType
  rejected : Bool
  payloadTypes : List (Nat × Codec)
  extmaps : List (Nat × String)
  ssrcGroups : List (String × List Nat)
  declaredSsrcs : List Nat
  rids : List String
  simulcast : Bool
deriving DecidableEq, Repr

/-- Modelled from the spec: description type tag {offer, answer,
pr-answer, rollback} (§3 StructuredDescription). -/
inductive SdpType where
  | offer
  | answer
  | prAnswer
  | rollback
deriving DecidableEq, Repr

/-- Modelled from the spec: a StructuredDescription (§3): ordered media
sections plus zero-or-more BundleGroups, each group a set of member
mids. -/
structure StructuredDescription where
  sections : List MediaSection
  bundleGroups : List (List String)
deriving DecidableEq, Repr

/-- Modelled from the spec: typed rejection kinds (§6, §7). -/
inductive RTCErrorType where
  | invalidParameter
  | internalError
deriving DecidableEq, Repr

/-- Outcome of applying a description: the typed error (`none` means the
call succeeded) together with the boolean-outcome metric events emitted
during this validation run (§6 metrics surface). -/
structure Outcome where
  error : Option RTCErrorType
  metrics : List (String × Bool)
deriving DecidableEq, Repr

/-- Association lookup on a Nat-keyed table, first match wins. -/
def assocLookup {α : Type} : Nat → List (Nat × α) → Option α
  | _, [] => none
  | k, (a, b) :: rest => if a = k then some b else assocLookup k rest

/-- Modelled from the spec: the map-building collision scan of §4.1 —
scan the entries in order, inserting each key/value into the accumulated
table; a key already mapped to a different value is a collision. -/
def collideAux {α : Type} [DecidableEq α] : List (Nat × α) → List (Nat × α) → Bool
  | _, [] => false
  | table, (k, v) :: rest =>
    match assocLookup k table with
    | some w => if v = w then collideAux table rest else true
    | none => collideAux ((k, v) :: table) rest

/-- Non-rejected member sections of one bundle group, in section order
(§4.1: scanning all non-rejected member sections in section order). -/
def groupMembers (d : StructuredDescription) (g : List String) : List MediaSection :=
  d.sections.filter (fun s => !s.rejected && g.contains s.mid)

/-- Concatenated payload-type tables of a bundle group's non-rejected
members, in section order. -/
def groupPts (d : StructuredDescription) (g : List String) : List (Nat × Codec) :=
  (groupMembers d g).foldr (fun s acc => s.payloadTypes ++ acc) []

/-- Concatenated header-extension tables of a bundle group's
non-rejected members, in section order. -/
def groupExts (d : StructuredDescription) (g : List String) : List (Nat × String) :=
  (groupMembers d g).foldr (fun s acc => s.extmaps ++ acc) []

/-- Modelled from the spec: some BundleGroup maps one payload-type
number to two distinct codec identities (§4.1 first bullet). -/
def anyPtCollision (d : StructuredDescription) : Bool :=
  d.bundleGroups.any (fun g => collideAux [] (groupPts d g))

/-- Modelled from the spec: some BundleGroup maps one header-extension
id to two different uris (§4.1 second bullet). -/
def anyExtCollision (d : StructuredDescription) : Bool :=
  d.bundleGroups.any (fun g => collideAux [] (groupExts d g))

/-- Modelled from the spec: every ssrc referenced by one of the
section's ssrc groups appears in that section's declared ssrcs (§3
invariant, §4.1 fourth bullet). -/
def sectionSsrcGroupsOk (s : MediaSection) : Bool :=
  s.ssrcGroups.all (fun g => g.2.all (fun ssrc => s.declaredSsrcs.contains ssrc))

/-- All sections of the description satisfy the ssrc-group invariant. -/
def allSsrcGroupsOk (d : StructuredDescription) : Bool :=
  d.sections.all sectionSsrcGroupsOk

/-- Modelled from the spec: a media-section identifier is a short opaque
token of at most 16 bytes (§3). -/
def midOk (s : MediaSection) : Bool :=
  s.mid.length ≤ 16

/-- Every section's identifier respects the length limit. -/
def allMidsOk (d : StructuredDescription) : Bool :=
  d.sections.all midOk

/-- Metric name for bundled payload-type validity
(`WebRTC.PeerConnection.ValidBundledPayloadTypes`). -/
def validBundledPayloadTypes : String :=
  "WebRTC.PeerConnection.ValidBundledPayloadTypes"

/-- Metric name for bundled header-extension-id validity
(`WebRTC.PeerConnection.ValidBundledExtensionIds`). -/
def validBundledExtensionIds : String :=
  "WebRTC.PeerConnection.ValidBundledExtensionIds"

/-- Number of events in this outcome's metric list for the given counter
name and bucket. -/
def countMetric (o : Outcome) (name : String) (b : Bool) : Nat :=
  (o.metrics.filter (fun e => decide (e.1 = name) && decide (e.2 = b))).length

/-- Modelled from the spec: the bundle validator of §4.1.  Oversized
identifiers are rejected before bundle checks run; the payload-type and
header-extension scans always emit their boolean pass/fail metric; a
header-extension id collision and a dangling ssrc-group reference fail
the whole description with `INVALID_PARAMETER`.  A payload-type
collision is measured (fail bucket) but does not reject the
description: the repository's tests `BundleRejectsCodecCollisionsAudioVideo`
and `BundleRejectsCodecCollisionsVideoFmtp` assert that
`SetRemoteDescription` succeeds (`EXPECT_TRUE(error.ok())`) while the
fail bucket increments. -/
def bundleValidate (d : StructuredDescription) : Outcome :=
  if allMidsOk d then
    { error :=
        if anyExtCollision d then some RTCErrorType.invalidParameter
        else if allSsrcGroupsOk d then none
        else some RTCErrorType.invalidParameter,
      metrics :=
        [(validBundledPayloadTypes, !anyPtCollision d),
         (validBundledExtensionIds, !anyExtCollision d)] }
  else { error := some RTCErrorType.invalidParameter, metrics := [] }

/-- Header-extension uri for carrying the mid
(`urn:ietf:params:rtp-hdrext:sdes:mid`). -/
def midUri : String :=
  "urn:ietf:params:rtp-hdrext:sdes:mid"

/-- Header-extension uri for carrying the rid
(`urn:ietf:params:rtp-hdrext:sdes:rtp-stream-id`). -/
def ridUri : String :=
  "urn:ietf:params:rtp-hdrext:sdes:rtp-stream-id"

/-- Whether the section's header-extension table carries the uri. -/
def hasUri (s : MediaSection) (u : String) : Bool :=
  s.extmaps.any (fun e => decide (e.2 = u))

/-- Modelled from the spec: the simulcast/rid validator of §4.2 — if an
answer section declares rid attributes and a simulcast attribute, its
header-extension set must include both the mid-carrying and the
rid-carrying extension. -/
def simulcastOk (s : MediaSection) : Bool :=
  !(s.simulcast && !s.rids.isEmpty) || (hasUri s midUri && hasUri s ridUri)

/-- Modelled from the spec: some ssrc appears in the declared ssrcs of
two different media sections (§7: duplicate ssrcs within a locally
generated description). -/
def crossSectionDupSsrc : List MediaSection → Bool
  | [] => false
  | s :: rest =>
    s.declaredSsrcs.any (fun x => rest.any (fun t => t.declaredSsrcs.contains x))
      || crossSectionDupSsrc rest

/-- Modelled from the spec: applying a remote description (§4.4): the
bundle validator runs first; for an answer the simulcast/rid validator
of §4.2 then runs, failing the whole call with `INVALID_PARAMETER` when
some section violates it. -/
def setRemoteDescription (t : SdpType) (d : StructuredDescription) : Outcome :=
  let o := bundleValidate d
  match t with
  | SdpType.answer =>
    if o.error.isNone && !(d.sections.all simulcastOk) then
      { o with error := some RTCErrorType.invalidParameter }
    else o
  | _ => o

/-- Modelled from the spec: applying a locally generated description
(§4.4, §7): the bundle validator runs, and in addition a duplicate ssrc
across two different media sections fails the call with
`INVALID_PARAMETER`. -/
def setLocalDescription (d : StructuredDescription) : Outcome :=
  let o := bundleValidate d
  if o.error.isNone && crossSectionDupSsrc d.sections then
    { o with error := some RTCErrorType.invalidParameter }
  else o

/-- Modelled from the spec: per-connection negotiation identity state
(§3 NegotiationState, §4.4): identifier assignments committed by a
completed offer/answer round, and assignments only tentatively
introduced by the in-flight pending description. -/
structure NegState where
  committed : List (Nat × String)
  tentative : List (Nat × String)
deriving DecidableEq, Repr

/-- Modelled from the spec: the state-machine operations relevant to
identifier stickiness (§4.4): setting a local offer (introducing
tentative identifier assignments for identities without a committed
one), completing the round (the remote answer commits the pending
assignments), and rollback (discarding only the tentative ones). -/
inductive NegOp where
  | setLocalOffer (assignments : List (Nat × String))
  | completeRound
  | rollback
deriving DecidableEq, Repr

/-- Modelled from the spec: one transition of the offer/answer state
machine, restricted to its effect on the identity table (§4.4):
rollback discards `pending` state and reverts only tentatively
introduced identity entries, leaving committed entries untouched. -/
def negStep (st : NegState) : NegOp → NegState
  | NegOp.setLocalOffer a =>
    { st with tentative := a.filter (fun p => (assocLookup p.1 st.committed).isNone) }
  | NegOp.completeRound =>
    { committed := st.committed ++ st.tentative, tentative := [] }
  | NegOp.rollback =>
    { st with tentative := [] }

/-- Run a sequence of negotiation operations. -/
def negRun (st : NegState) (ops : List NegOp) : NegState :=
  ops.foldl negStep st

/-- Identifier a newly generated local offer carries for an identity:
its committed identifier when one exists, otherwise its tentative
one (§4.3: reuse the previous slot). -/
def offeredMid (st : NegState) (t : Nat) : Option String :=
  match assocLookup t st.committed with
  | some m => some m
  | none => assocLookup t st.tentative

/-- Modelled from the spec: recycling states of one identity record
(§4.3): `Unused`, `Active`, `RejectedInactive`, `RejectedPendingReuse`. -/
inductive SlotState where
  | unused
  | active
  | rejectedInactive
  | rejectedPendingReuse
deriving DecidableEq, Repr

/-- Modelled from the spec: one identity record of the section identity
manager (§3, §4.3): its recycling state, its assigned identifier, and
whether a renegotiation-needed signal is pending. -/
structure Slot where
  state : SlotState
  mid : Option String
  negNeeded : Bool
deriving DecidableEq, Repr

/-- Modelled from the spec: events driving one identity record (§4.3):
creation of a new same-kind local purpose, the remote description
rejecting the section, and generation of a local offer. -/
inductive SlotEvent where
  | createPurpose
  | remoteReject
  | genOffer
deriving DecidableEq, Repr

/-- Modelled from the spec: the recycling transitions of §4.3.
`Unused → Active` on a new purpose; `Active → RejectedInactive` on
remote rejection; `RejectedInactive → RejectedPendingReuse` on a new
purpose (raising the renegotiation-needed signal);
`RejectedPendingReuse → Active` on the next generated offer, the only
transition that flips `rejected` back. -/
def slotStep (s : Slot) : SlotEvent → Slot
  | SlotEvent.createPurpose =>
    match s.state with
    | SlotState.unused => { s with state := SlotState.active, negNeeded := true }
    | SlotState.rejectedInactive =>
      { s with state := SlotState.rejectedPendingReuse, negNeeded := true }
    | _ => s
  | SlotEvent.remoteReject =>
    match s.state with
    | SlotState.active => { s with state := SlotState.rejectedInactive }
    | _ => s
  | SlotEvent.genOffer =>
    match s.state with
    | SlotState.rejectedPendingReuse =>
      { s with state := SlotState.active, negNeeded := false }
    | _ => { s with negNeeded := false }

/-- Run a sequence of slot events. -/
def slotRun (s : Slot) (evs : List SlotEvent) : Slot :=
  evs.foldl slotStep s

/-- Modelled from the spec: the media section a generated local offer
emits for this identity record: its assigned identifier, with
`rejected = true` exactly in state `RejectedInactive` (§4.3: absent a
new purpose a rejected slot stays rejected; a pending-reuse or active
slot is offered non-rejected). -/
def offerSection (s : Slot) : Option (String × Bool) :=
  match s.mid with
  | none => none
  | some m =>
    some (m, match s.state with
             | SlotState.rejectedInactive => true
             | _ => false)

/-- Codec identity for opus as used by the tests (`a=rtpmap:111 opus/48000/2`). -/
def opusCodec : Codec :=
  { name := "opus", clockRate := 48000, fmtp := "" }

/-- Codec identity for H264 with packetization-mode 0 as used by the tests. -/
def h264Mode0 : Codec :=
  { name := "H264", clockRate := 90000,
    fmtp := "level-asymmetry-allowed=1;packetization-mode=0;profile-level-id=42e01f" }

/-- Codec identity for H264 with packetization-mode 1 as used by the tests. -/
def h264Mode1 : Codec :=
  { name := "H264", clockRate := 90000,
    fmtp := "level-asymmetry-allowed=1;packetization-mode=1;profile-level-id=42e01f" }

/-- Codec identity for VP8 as used by the tests. -/
def vp8Codec : Codec :=
  { name := "VP8", clockRate := 90000, fmtp := "" }

/-- Codec identity for rtx associated with payload type 96. -/
def rtxCodec : Codec :=
  { name := "rtx", clockRate := 90000, fmtp := "apt=96" }

/-- Codec identity for flexfec-03 as used by the tests. -/
def flexfecCodec : Codec :=
  { name := "flexfec-03", clockRate := 90000, fmtp := "repair-window=10000000" }

/-- Transport-wide congestion-control header-extension uri used by the tests. -/
def twccUri : String :=
  "http://www.ietf.org/id/draft-holmer-rmcat-transport-wide-cc-extensions-01"

/-- Video-orientation header-extension uri used by the tests. -/
def videoOrientationUri : String :=
  "urn:3gpp:video-orientation"

/-- A plain media section with every optional attribute empty. -/
def baseSection : MediaSection :=
  { mid := "0", mediaType := MediaType.audio, rejected := false, payloadTypes := [],
    extmaps := [], ssrcGroups := [], declaredSsrcs := [], rids := [], simulcast := false }

/-- Append the mid-carrying and rid-carrying header extensions to a section
(ids 9 and 10, the test's appended `a=extmap` lines). -/
def addSimulcastExts (s : MediaSection) : MediaSection :=
  { s with extmaps := s.extmaps ++ [(9, midUri), (10, ridUri)] }

/-- Append the mid-carrying and rid-carrying header extensions to every
section of a description. -/
def withSimulcastExts (d : StructuredDescription) : StructuredDescription :=
  { d with sections := d.sections.map addSimulcastExts }

/-- Remote offer of test `BundleRejectsCodecCollisionsAudioVideo`: one
BUNDLE group whose audio section maps 111 to opus and whose video
section maps 111 to H264. -/
def exDescC1 : StructuredDescription :=
  { sections :=
      [{ baseSection with
          mid := "0", mediaType := MediaType.audio,
          payloadTypes := [(111, opusCodec)] },
       { baseSection with
          mid := "1", mediaType := MediaType.video,
          payloadTypes := [(111, h264Mode0)] }],
    bundleGroups := [["0", "1"]] }

/-- Remote offer of test `BundleRejectsHeaderExtensionIdCollision`:
extmap id 3 bound to the transport-wide-cc uri in the audio section and
to the video-orientation uri in the video section of one BUNDLE group. -/
def exDescC4 : StructuredDescription :=
  { sections :=
      [{ baseSection with
          mid := "0", mediaType := MediaType.audio,
          payloadTypes := [(111, opusCodec)], extmaps := [(3, twccUri)] },
       { baseSection with
          mid := "1", mediaType := MediaType.video,
          payloadTypes := [(112, vp8Codec)], extmaps := [(3, videoOrientationUri)] }],
    bundleGroups := [["0", "1"]] }

/-- Remote offer of test `BundleAcceptsDifferentIdsForSameExtension`:
the transport-wide-cc uri negotiated under id 3 in the audio section and
under id 4 in the video section of one BUNDLE group. -/
def exDescC5 : StructuredDescription :=
  { sections :=
      [{ baseSection with
          mid := "0", mediaType := MediaType.audio,
          payloadTypes := [(111, opusCodec)], extmaps := [(3, twccUri)] },
       { baseSection with
          mid := "1", mediaType := MediaType.video,
          payloadTypes := [(112, vp8Codec)], extmaps := [(4, twccUri)] }],
    bundleGroups := [["0", "1"]] }

/-- Remote answer of test `SimulcastAnswerWithNoRidsIsRejected`: a video
section declaring rids 1 and 2 and a simulcast attribute, with no
header extensions negotiated. -/
def exDescC6 : StructuredDescription :=
  { sections :=
      [{ baseSection with
          mid := "0", mediaType := MediaType.video,
          payloadTypes := [(96, vp8Codec)], rids := ["1", "2"], simulcast := true }],
    bundleGroups := [] }

/-- Remote offer of test `ExpectAllSsrcsSpecifiedInSsrcGroupFid`: an
`a=ssrc-group:FID 1 2` whose ssrc 2 is not declared in the section. -/
def exDescC7 : StructuredDescription :=
  { sections :=
      [{ baseSection with
          mid := "0", mediaType := MediaType.video,
          payloadTypes := [(96, h264Mode1), (97, rtxCodec)],
          ssrcGroups := [("FID", [1, 2])], declaredSsrcs := [1] }],
    bundleGroups := [["0"]] }

/-- Local offer of test `DuplicateSsrcsDisallowedInLocalDescription`
after the mutation: the second section's first ssrc copied into the
first section, so ssrc 2 is declared by both sections. -/
def exDescC8 : StructuredDescription :=
  { sections :=
      [{ baseSection with
          mid := "0", mediaType := MediaType.audio,
          payloadTypes := [(111, opusCodec)], declaredSsrcs := [2] },
       { baseSection with
          mid := "1", mediaType := MediaType.video,
          payloadTypes := [(112, vp8Codec)], declaredSsrcs := [2] }],
    bundleGroups := [["0", "1"]] }

/-- Remote offer of test `LargeMidsAreRejected`: a single video section
whose mid `01234567890123456` is 17 bytes long. -/
def exDescC9 : StructuredDescription :=
  { sections :=
      [{ baseSection with
          mid := "01234567890123456", mediaType := MediaType.video,
          payloadTypes := [(111, vp8Codec)] }],
    bundleGroups := [] }

/-- Remote offer of test `BundleCodecCollisionInDifferentBundlesAllowed`:
two disjoint single-member BUNDLE groups whose sections map payload
type 111 to H264 with different fmtp parameters. -/
def exDescC10 : StructuredDescription :=
  { sections :=
      [{ baseSection with
          mid := "0", mediaType := MediaType.video,
          payloadTypes := [(111, h264Mode0)] },
       { baseSection with
          mid := "1", mediaType := MediaType.video,
          payloadTypes := [(111, h264Mode1)] }],
    bundleGroups := [["0"], ["1"]] }

/-- Committed negotiation state after the completed round of test
`RollbackPreservesAddTrackMid`: transceiver 0 holds committed mid 0. -/
def stExC2 : NegState :=
  { committed := [(0, "0")], tentative := [] }

/-- Identity record of the rejected data-channel slot of tests
`RejectedDataChannelsDoNotGetReoffered` and
`RejectedDataChannelsDoGetReofferedWhenActive`: mid 0, rejected by the
remote answer. -/
def slotExC3 : Slot :=
  { state := SlotState.rejectedInactive, mid := some "0", negNeeded := false }

theorem assocLookup_mem {α : Type} {k : Nat} {w : α} {l : List (Nat × α)}
    (h : assocLookup k l = some w) : (k, w) ∈ l := by
  induction l with
  | nil => simp [assocLookup] at h
  | cons p rest ih =>
    obtain ⟨a, b⟩ := p
    simp only [assocLookup] at h
    by_cases hak : a = k
    · subst hak
      rw [if_pos rfl] at h
      injection h with h
      subst h
      exact List.mem_cons_self _ _
    · rw [if_neg hak] at h
      exact List.mem_cons_of_mem _ (ih h)

theorem assocLookup_append_left {α : Type} {k : Nat} {m : α} {l l2 : List (Nat × α)}
    (h : assocLookup k l = some m) : assocLookup k (l ++ l2) = some m := by
  induction l with
  | nil => simp [assocLookup] at h
  | cons p rest ih =>
    obtain ⟨a, b⟩ := p
    simp only [List.cons_append, assocLookup] at h ⊢
    by_cases hak : a = k
    · rw [if_pos hak] at h ⊢
      exact h
    · rw [if_neg hak] at h ⊢
      exact ih h

theorem collideAux_eq_false {α : Type} [DecidableEq α] :
    ∀ (l table : List (Nat × α)),
      (∀ p ∈ l, ∀ q ∈ l, p.1 = q.1 → p.2 = q.2) →
      (∀ p ∈ table, ∀ q ∈ l, p.1 = q.1 → p.2 = q.2) →
      collideAux table l = false
  | [], _, _, _ => rfl
  | (k, v) :: rest, table, hl, hcross => by
    simp only [collideAux]
    cases hw : assocLookup k table with
    | some w =>
      have hvw : v = w :=
        (hcross (k, w) (assocLookup_mem hw) (k, v) (List.mem_cons_self _ _) rfl).symm
      dsimp only
      rw [if_pos hvw]
      exact collideAux_eq_false rest table
        (fun p hp q hq hk => hl p (List.mem_cons_of_mem _ hp) q (List.mem_cons_of_mem _ hq) hk)
        (fun p hp q hq hk => hcross p hp q (List.mem_cons_of_mem _ hq) hk)
    | none =>
      refine collideAux_eq_false rest ((k, v) :: table)
        (fun p hp q hq hk => hl p (List.mem_cons_of_mem _ hp) q (List.mem_cons_of_mem _ hq) hk)
        (fun p hp q hq hk => ?_)
      rcases List.mem_cons.mp hp with hph | hpt
      · subst hph
        exact hl (k, v) (List.mem_cons_self _ _) q (List.mem_cons_of_mem _ hq) hk
      · exact hcross p hpt q (List.mem_cons_of_mem _ hq) hk

theorem functional_of_collideAux_false {α : Type} [DecidableEq α] :
    ∀ (l table : List (Nat × α)),
      collideAux table l = false →
      (∀ q ∈ l, ∀ w, assocLookup q.1 table = some w → w = q.2) ∧
      (∀ p ∈ l, ∀ q ∈ l, p.1 = q.1 → p.2 = q.2)
  | [], _, _ => by
    constructor
    · intro q hq
      simp at hq
    · intro p hp
      simp at hp
  | (k, v) :: rest, table, h => by
    simp only [collideAux] at h
    split at h
    · rename_i w hw
      by_cases hvw : v = w
      · rw [if_pos hvw] at h
        subst hvw
        obtain ⟨arest, frest⟩ := functional_of_collideAux_false rest table h
        refine ⟨?_, ?_⟩
        · intro q hq w2 hlq
          rcases List.mem_cons.mp hq with hqh | hqt
          · subst hqh
            have hlq2 : assocLookup k table = some w2 := hlq
            rw [hw] at hlq2
            injection hlq2 with hlq2
            exact hlq2.symm
          · exact arest q hqt w2 hlq
        · intro p hp q hq hk
          rcases List.mem_cons.mp hp with hph | hpt <;>
            rcases List.mem_cons.mp hq with hqh | hqt
          · subst hph; subst hqh; rfl
          · subst hph
            have hlq : assocLookup q.1 table = some v := by
              have hk2 : k = q.1 := hk
              rw [← hk2]
              exact hw
            exact arest q hqt v hlq
          · subst hqh
            have hlq : assocLookup p.1 table = some v := by
              have hk2 : p.1 = k := hk
              rw [hk2]
              exact hw
            exact (arest p hpt v hlq).symm
          · exact frest p hpt q hqt hk
      · rw [if_neg hvw] at h
        exact absurd h (by simp)
    · rename_i hw
      obtain ⟨arest, frest⟩ := functional_of_collideAux_false rest ((k, v) :: table) h
      refine ⟨?_, ?_⟩
      · intro q hq w2 hlq
        rcases List.mem_cons.mp hq with hqh | hqt
        · subst hqh
          have hlq2 : assocLookup k table = some w2 := hlq
          rw [hw] at hlq2
          exact absurd hlq2 (by simp)
        · refine arest q hqt w2 ?_
          have hne : ¬ k = q.1 := by
            intro hkq
            rw [← hkq] at hlq
            rw [hw] at hlq
            exact absurd hlq (by simp)
          simp only [assocLookup]
          rw [if_neg hne]
          exact hlq
      · intro p hp q hq hk
        rcases List.mem_cons.mp hp with hph | hpt <;>
          rcases List.mem_cons.mp hq with hqh | hqt
        · subst hph; subst hqh; rfl
        · subst hph
          have hm : assocLookup q.1 ((k, v) :: table) = some v := by
            simp only [assocLookup]
            have hk2 : k = q.1 := hk
            rw [if_pos hk2]
          exact arest q hqt v hm
        · subst hqh
          have hm : assocLookup p.1 ((k, v) :: table) = some v := by
            simp only [assocLookup]
            have hk2 : k = p.1 := hk.symm
            rw [if_pos hk2]
          exact (arest p hpt v hm).symm
        · exact frest p hpt q hqt hk

theorem collideAux_true_of_conflict {α : Type} [DecidableEq α] {l : List (Nat × α)}
    {p q : Nat × α} (hp : p ∈ l) (hq : q ∈ l) (hk : p.1 = q.1) (hv : p.2 ≠ q.2) :
    collideAux [] l = true := by
  cases h : collideAux [] l with
  | false =>
    exact absurd ((functional_of_collideAux_false l [] h).2 p hp q hq hk) hv
  | true => rfl

theorem collideAux_false_of_functional {α : Type} [DecidableEq α] {l : List (Nat × α)}
    (h : ∀ p ∈ l, ∀ q ∈ l, p.1 = q.1 → p.2 = q.2) : collideAux [] l = false :=
  collideAux_eq_false l [] h (fun p hp => absurd hp (List.not_mem_nil p))

theorem anyPtCollision_true {d : StructuredDescription} {g : List String}
    (hg : g ∈ d.bundleGroups) (hc : collideAux [] (groupPts d g) = true) :
    anyPtCollision d = true :=
  List.any_eq_true.mpr ⟨g, hg, hc⟩

theorem anyExtCollision_true {d : StructuredDescription} {g : List String}
    (hg : g ∈ d.bundleGroups) (hc : collideAux [] (groupExts d g) = true) :
    anyExtCollision d = true :=
  List.any_eq_true.mpr ⟨g, hg, hc⟩

theorem anyPtCollision_false {d : StructuredDescription}
    (h : ∀ g ∈ d.bundleGroups,
      ∀ p ∈ groupPts d g, ∀ q ∈ groupPts d g, p.1 = q.1 → p.2 = q.2) :
    anyPtCollision d = false := by
  simp only [anyPtCollision]
  rw [List.any_eq_false]
  intro g hg
  simp [collideAux_false_of_functional (h g hg)]

theorem anyExtCollision_false {d : StructuredDescription}
    (h : ∀ g ∈ d.bundleGroups,
      ∀ p ∈ groupExts d g, ∀ q ∈ groupExts d g, p.1 = q.1 → p.2 = q.2) :
    anyExtCollision d = false := by
  simp only [anyExtCollision]
  rw [List.any_eq_false]
  intro g hg
  simp [collideAux_false_of_functional (h g hg)]

/-- Claim C1, amended: for every remote description containing a BUNDLE
group in which two non-rejected member sections map the same
payload-type number to two distinct codec identities (and which is
otherwise valid), applying the remote description succeeds — the
collision does not cause rejection — and the bundled-payload-type
validity fail counter (`WebRTC.PeerConnection.ValidBundledPayloadTypes`,
false bucket) increments by exactly 1. -/
theorem c1_pt_collision_measured_not_rejected (d : StructuredDescription)
    (g : List String) (hg : g ∈ d.bundleGroups)
    (p q : Nat × Codec) (hp : p ∈ groupPts d g) (hq : q ∈ groupPts d g)
    (hk : p.1 = q.1) (hv : p.2 ≠ q.2)
    (hmids : allMidsOk d = true)
    (hext : anyExtCollision d = false)
    (hssrc : allSsrcGroupsOk d = true) :
    (setRemoteDescription SdpType.offer d).error = none ∧
      countMetric (setRemoteDescription SdpType.offer d)
        validBundledPayloadTypes false = 1 := by
  have hpt : anyPtCollision d = true :=
    anyPtCollision_true hg (collideAux_true_of_conflict hp hq hk hv)
  have hrw : setRemoteDescription SdpType.offer d =
      { error := none,
        metrics := [(validBundledPayloadTypes, false),
                    (validBundledExtensionIds, true)] } := by
    simp [setRemoteDescription, bundleValidate, hmids, hext, hssrc, hpt]
  rw [hrw]
  exact ⟨rfl, by decide⟩

/-- Claim C1, counterexample: at the concrete offer of test
`BundleRejectsCodecCollisionsAudioVideo` (payload type 111 mapped to
opus in the audio section and to H264 in the bundled video section) the
payload-type collision is present and the fail bucket increments, yet
applying the remote description succeeds — refuting the claimed
InvalidParameter failure. -/
theorem c1_counterexample :
    anyPtCollision exDescC1 = true ∧
      (setRemoteDescription SdpType.offer exDescC1).error = none ∧
      countMetric (setRemoteDescription SdpType.offer exDescC1)
        validBundledPayloadTypes false = 1 := by
  decide

/-- Claim C1, witness: the amended theorem applied at the concrete offer
of test `BundleRejectsCodecCollisionsAudioVideo`. -/
theorem c1_witness :
    (setRemoteDescription SdpType.offer exDescC1).error = none ∧
      countMetric (setRemoteDescription SdpType.offer exDescC1)
        validBundledPayloadTypes false = 1 :=
  c1_pt_collision_measured_not_rejected exDescC1 ["0", "1"] (by decide)
    (111, opusCodec) (111, h264Mode0) (by decide) (by decide) rfl (by decide)
    (by decide) (by decide) (by decide)

/-- Claim C4: for every remote description containing a BUNDLE group in
which two non-rejected member sections map the same header-extension id
to two different extension uris, applying the remote description fails
with InvalidParameter and the bundled-extension-id validity fail counter
(`WebRTC.PeerConnection.ValidBundledExtensionIds`, false bucket)
increments by exactly 1. -/
theorem c4_ext_id_collision_rejected (d : StructuredDescription)
    (g : List String) (hg : g ∈ d.bundleGroups)
    (p q : Nat × String) (hp : p ∈ groupExts d g) (hq : q ∈ groupExts d g)
    (hk : p.1 = q.1) (hv : p.2 ≠ q.2)
    (hmids : allMidsOk d = true) :
    (setRemoteDescription SdpType.offer d).error = some RTCErrorType.invalidParameter ∧
      countMetric (setRemoteDescription SdpType.offer d)
        validBundledExtensionIds false = 1 := by
  have hext : anyExtCollision d = true :=
    anyExtCollision_true hg (collideAux_true_of_conflict hp hq hk hv)
  have hrw : setRemoteDescription SdpType.offer d =
      { error := some RTCErrorType.invalidParameter,
        metrics := [(validBundledPayloadTypes, !anyPtCollision d),
                    (validBundledExtensionIds, false)] } := by
    simp [setRemoteDescription, bundleValidate, hmids, hext]
  rw [hrw]
  refine ⟨rfl, ?_⟩
  cases anyPtCollision d <;> decide

/-- Claim C4, witness: the theorem applied at the concrete offer of test
`BundleRejectsHeaderExtensionIdCollision` (extmap id 3 bound to
transport-wide-cc in the audio section and to video-orientation in the
bundled video section). -/
theorem c4_witness :
    (setRemoteDescription SdpType.offer exDescC4).error = some RTCErrorType.invalidParameter ∧
      countMetric (setRemoteDescription SdpType.offer exDescC4)
        validBundledExtensionIds false = 1 :=
  c4_ext_id_collision_rejected exDescC4 ["0", "1"] (by decide)
    (3, twccUri) (3, videoOrientationUri) (by decide) (by decide) rfl (by decide)
    (by decide)

/-- Claim C5: for every remote description containing a BUNDLE group in
which no two sections map one header-extension id to different uris
(the same uri appearing under different ids is allowed), and which is
otherwise valid, applying the remote description succeeds and the
bundled-extension-id validity pass counter
(`WebRTC.PeerConnection.ValidBundledExtensionIds`, true bucket)
increments by exactly 1: uri duplication is tolerated, never
rejected. -/
theorem c5_uri_duplication_tolerated (d : StructuredDescription)
    (hmids : allMidsOk d = true)
    (hfun : ∀ g ∈ d.bundleGroups,
      ∀ p ∈ groupExts d g, ∀ q ∈ groupExts d g, p.1 = q.1 → p.2 = q.2)
    (hssrc : allSsrcGroupsOk d = true) :
    (setRemoteDescription SdpType.offer d).error = none ∧
      countMetric (setRemoteDescription SdpType.offer d)
        validBundledExtensionIds true = 1 := by
  have hext : anyExtCollision d = false := anyExtCollision_false hfun
  have hrw : setRemoteDescription SdpType.offer d =
      { error := none,
        metrics := [(validBundledPayloadTypes, !anyPtCollision d),
                    (validBundledExtensionIds, true)] } := by
    simp [setRemoteDescription, bundleValidate, hmids, hext, hssrc]
  rw [hrw]
  refine ⟨rfl, ?_⟩
  cases anyPtCollision d <;> decide

/-- Claim C5, witness: the theorem applied at the concrete offer of test
`BundleAcceptsDifferentIdsForSameExtension` (transport-wide-cc
negotiated under id 3 in the audio section and id 4 in the bundled
video section). -/
theorem c5_witness :
    (setRemoteDescription SdpType.offer exDescC5).error = none ∧
      countMetric (setRemoteDescription SdpType.offer exDescC5)
        validBundledExtensionIds true = 1 :=
  c5_uri_duplication_tolerated exDescC5 (by decide) (by decide) (by decide)

/-- Claim C10: for every remote description whose BUNDLE groups each map
every payload-type number to a single codec identity within the group
(collision checks never run across groups, so sections in different
groups may map the same payload type to distinct codecs), and which is
otherwise valid, applying the remote description succeeds and the
bundled-payload-type validity fail counter stays at 0. -/
theorem c10_no_cross_group_validation (d : StructuredDescription)
    (hmids : allMidsOk d = true)
    (hptfun : ∀ g ∈ d.bundleGroups,
      ∀ p ∈ groupPts d g, ∀ q ∈ groupPts d g, p.1 = q.1 → p.2 = q.2)
    (hextfun : ∀ g ∈ d.bundleGroups,
      ∀ p ∈ groupExts d g, ∀ q ∈ groupExts d g, p.1 = q.1 → p.2 = q.2)
    (hssrc : allSsrcGroupsOk d = true) :
    (setRemoteDescription SdpType.offer d).error = none ∧
      countMetric (setRemoteDescription SdpType.offer d)
        validBundledPayloadTypes false = 0 := by
  have hpt : anyPtCollision d = false := anyPtCollision_false hptfun
  have hext : anyExtCollision d = false := anyExtCollision_false hextfun
  have hrw : setRemoteDescription SdpType.offer d =
      { error := none,
        metrics := [(validBundledPayloadTypes, true),
                    (validBundledExtensionIds, true)] } := by
    simp [setRemoteDescription, bundleValidate, hmids, hpt, hext, hssrc]
  rw [hrw]
  exact ⟨rfl, by decide⟩

/-- Claim C10, witness: the theorem applied at the concrete offer of
test `BundleCodecCollisionInDifferentBundlesAllowed` — two disjoint
single-member groups whose sections map payload type 111 to H264 with
different fmtp parameters, a collision across groups but not within
any group. -/
theorem c10_witness :
    (setRemoteDescription SdpType.offer exDescC10).error = none ∧
      countMetric (setRemoteDescription SdpType.offer exDescC10)
        validBundledPayloadTypes false = 0 :=
  c10_no_cross_group_validation exDescC10 (by decide) (by decide) (by decide)
    (by decide)

/-- Claim C7: for every media section of an incoming offer containing an
ssrc group (of any group semantic) that references an ssrc not present
in that section's declared ssrcs, applying the whole offer fails with
InvalidParameter. -/
theorem c7_dangling_ssrc_group_rejected (d : StructuredDescription)
    (s : MediaSection) (hs : s ∈ d.sections)
    (grp : String × List Nat) (hgrp : grp ∈ s.ssrcGroups)
    (x : Nat) (hx : x ∈ grp.2) (hnd : x ∉ s.declaredSsrcs) :
    (setRemoteDescription SdpType.offer d).error = some RTCErrorType.invalidParameter := by
  have hssrc : allSsrcGroupsOk d = false := by
    cases hall : allSsrcGroupsOk d with
    | false => rfl
    | true =>
      exfalso
      have h1 := List.all_eq_true.mp hall s hs
      simp only [sectionSsrcGroupsOk] at h1
      have h2 := List.all_eq_true.mp h1 grp hgrp
      have h3 := List.all_eq_true.mp h2 x hx
      exact hnd (by simpa using h3)
  simp only [setRemoteDescription, bundleValidate]
  by_cases hm : allMidsOk d
  · rw [if_pos hm]
    by_cases he : anyExtCollision d
    · simp [he]
    · simp [he, hssrc]
  · rw [if_neg hm]

/-- Claim C7, witness: the theorem applied at the concrete offer of test
`ExpectAllSsrcsSpecifiedInSsrcGroupFid` (`a=ssrc-group:FID 1 2` with
only ssrc 1 declared). -/
theorem c7_witness :
    (setRemoteDescription SdpType.offer exDescC7).error = some RTCErrorType.invalidParameter :=
  c7_dangling_ssrc_group_rejected exDescC7
    { baseSection with
       mid := "0", mediaType := MediaType.video,
       payloadTypes := [(96, h264Mode1), (97, rtxCodec)],
       ssrcGroups := [("FID", [1, 2])], declaredSsrcs := [1] }
    (by decide) ("FID", [1, 2]) (by decide) 2 (by decide) (by decide)

/-- Claim C8: every locally generated offer in which the same ssrc value
appears in the stream declarations of two different media sections
fails to be set as the local description, with InvalidParameter. -/
theorem c8_duplicate_ssrc_rejected_locally (d : StructuredDescription)
    (hdup : crossSectionDupSsrc d.sections = true) :
    (setLocalDescription d).error = some RTCErrorType.invalidParameter := by
  simp only [setLocalDescription, bundleValidate]
  by_cases hm : allMidsOk d
  · rw [if_pos hm]
    by_cases he : anyExtCollision d
    · simp [he]
    · by_cases hsg : allSsrcGroupsOk d
      · simp [he, hsg, hdup]
      · simp [he, hsg]
  · rw [if_neg hm]
    simp

/-- Claim C8, witness: the theorem applied at the mutated local offer of
test `DuplicateSsrcsDisallowedInLocalDescription` (ssrc 2 declared by
both the audio and the video section). -/
theorem c8_witness :
    (setLocalDescription exDescC8).error = some RTCErrorType.invalidParameter :=
  c8_duplicate_ssrc_rejected_locally exDescC8 (by decide)

/-- Claim C9: every description containing a media section whose
identifier is longer than 16 bytes is rejected with InvalidParameter,
regardless of the validity of all other content and independent of
whether the section is bundled — as a remote offer, a remote answer,
or a local description. -/
theorem c9_oversized_mid_rejected (d : StructuredDescription)
    (s : MediaSection) (hs : s ∈ d.sections) (hlen : 16 < s.mid.length) :
    (setRemoteDescription SdpType.offer d).error = some RTCErrorType.invalidParameter ∧
      (setRemoteDescription SdpType.answer d).error = some RTCErrorType.invalidParameter ∧
      (setLocalDescription d).error = some RTCErrorType.invalidParameter := by
  have hm : allMidsOk d = false := by
    cases hall : allMidsOk d with
    | false => rfl
    | true =>
      exfalso
      have h1 := List.all_eq_true.mp hall s hs
      simp only [midOk, decide_eq_true_eq] at h1
      omega
  refine ⟨?_, ?_, ?_⟩ <;> simp [setRemoteDescription, setLocalDescription, bundleValidate, hm]

/-- Claim C9, witness: the theorem applied at the concrete offer of test
`LargeMidsAreRejected` (mid `01234567890123456`, 17 bytes). -/
theorem c9_witness :
    (setRemoteDescription SdpType.offer exDescC9).error = some RTCErrorType.invalidParameter ∧
      (setRemoteDescription SdpType.answer exDescC9).error = some RTCErrorType.invalidParameter ∧
      (setLocalDescription exDescC9).error = some RTCErrorType.invalidParameter :=
  c9_oversized_mid_rejected exDescC9
    { baseSection with
       mid := "01234567890123456", mediaType := MediaType.video,
       payloadTypes := [(111, vp8Codec)] }
    (by decide) (by decide)

theorem hasUri_addSimulcastExts_mid (u : MediaSection) :
    hasUri (addSimulcastExts u) midUri = true := by
  have htail : List.any [(9, midUri), (10, ridUri)]
      (fun e => decide (e.2 = midUri)) = true := by decide
  simp [hasUri, addSimulcastExts, List.any_append, htail]

theorem hasUri_addSimulcastExts_rid (u : MediaSection) :
    hasUri (addSimulcastExts u) ridUri = true := by
  have htail : List.any [(9, midUri), (10, ridUri)]
      (fun e => decide (e.2 = ridUri)) = true := by decide
  simp [hasUri, addSimulcastExts, List.any_append, htail]

/-- Claim C6: for every answer containing a media section that declares
rid attributes and a simulcast attribute, applying the remote answer
fails when the header-extension set negotiated for that section lacks
the mid-carrying or the rid-carrying extension, while the identical
answer with both of those extensions appended to its sections (and
still passing the bundle validator) is accepted. -/
theorem c6_simulcast_answer_needs_mid_rid (d : StructuredDescription)
    (s : MediaSection) (hs : s ∈ d.sections)
    (hsim : s.simulcast = true) (hrids : s.rids ≠ [])
    (hmiss : hasUri s midUri = false ∨ hasUri s ridUri = false)
    (hb : (bundleValidate d).error = none)
    (hb2 : (bundleValidate (withSimulcastExts d)).error = none) :
    (setRemoteDescription SdpType.answer d).error = some RTCErrorType.invalidParameter ∧
      (setRemoteDescription SdpType.answer (withSimulcastExts d)).error = none := by
  constructor
  · have hre : s.rids.isEmpty = false := by
      cases hr : s.rids with
      | nil => exact absurd hr hrids
      | cons a t => simp
    have hbad : simulcastOk s = false := by
      rcases hmiss with h | h <;> simp [simulcastOk, hsim, hre, h]
    have hall : d.sections.all simulcastOk = false := by
      cases hA : d.sections.all simulcastOk with
      | false => rfl
      | true => exact absurd (List.all_eq_true.mp hA s hs) (by simp [hbad])
    simp [setRemoteDescription, hb, hall]
  · have hall2 : (withSimulcastExts d).sections.all simulcastOk = true := by
      rw [List.all_eq_true]
      intro t ht
      simp only [withSimulcastExts] at ht
      obtain ⟨u, hu, rfl⟩ := List.mem_map.mp ht
      simp [simulcastOk, hasUri_addSimulcastExts_mid, hasUri_addSimulcastExts_rid]
    simp [setRemoteDescription, hb2, hall2]

/-- Claim C6, witness: the theorem applied at the concrete answer of
test `SimulcastAnswerWithNoRidsIsRejected` (a video section with rids
1 and 2, a simulcast attribute, and no negotiated header
extensions). -/
theorem c6_witness :
    (setRemoteDescription SdpType.answer exDescC6).error = some RTCErrorType.invalidParameter ∧
      (setRemoteDescription SdpType.answer (withSimulcastExts exDescC6)).error = none :=
  c6_simulcast_answer_needs_mid_rid exDescC6
    { baseSection with
       mid := "0", mediaType := MediaType.video,
       payloadTypes := [(96, vp8Codec)], rids := ["1", "2"], simulcast := true }
    (by decide) rfl (by decide) (Or.inl (by decide)) (by decide) (by decide)

/-- Claim C2: for every transceiver whose mid was assigned (committed)
by a completed offer/answer round, any subsequent sequence of
negotiation operations never changes the committed assignment — in
particular a rollback of a later in-flight round leaves it unchanged —
and a new offer generated after that rollback still carries the same
identifier. -/
theorem c2_rollback_preserves_committed_mid (st : NegState) (t : Nat) (m : String)
    (h : assocLookup t st.committed = some m) :
    (∀ ops : List NegOp, assocLookup t (negRun st ops).committed = some m) ∧
      (∀ a : List (Nat × String),
        offeredMid (negRun st [NegOp.setLocalOffer a, NegOp.rollback]) t = some m) := by
  have key : ∀ ops : List NegOp, ∀ st2 : NegState,
      assocLookup t st2.committed = some m →
      assocLookup t (negRun st2 ops).committed = some m := by
    intro ops
    induction ops with
    | nil => intro st2 h2; exact h2
    | cons op rest ih =>
      intro st2 h2
      show assocLookup t (negRun (negStep st2 op) rest).committed = some m
      apply ih
      cases op with
      | setLocalOffer a => exact h2
      | completeRound => exact assocLookup_append_left h2
      | rollback => exact h2
  refine ⟨fun ops => key ops st h, fun a => ?_⟩
  have h2 := key [NegOp.setLocalOffer a, NegOp.rollback] st h
  simp [offeredMid, h2]

/-- Claim C2, witness: the theorem applied at the committed state of
test `RollbackPreservesAddTrackMid` — transceiver 0 committed to mid 0,
then an in-flight local offer followed by a rollback. -/
theorem c2_witness :
    assocLookup 0 (negRun stExC2
        [NegOp.setLocalOffer [(1, "1")], NegOp.rollback]).committed = some "0" ∧
      offeredMid (negRun stExC2
        [NegOp.setLocalOffer [(1, "1")], NegOp.rollback]) 0 = some "0" :=
  ⟨(c2_rollback_preserves_committed_mid stExC2 0 "0" (by decide)).1
      [NegOp.setLocalOffer [(1, "1")], NegOp.rollback],
   (c2_rollback_preserves_committed_mid stExC2 0 "0" (by decide)).2 [(1, "1")]⟩

/-- Claim C3: for an identity record whose section was rejected by the
remote answer, (1) any sequence of events containing no new same-kind
purpose leaves the record rejected-inactive and every generated offer
re-offers the same identifier with rejected = true; (2) creating a new
same-kind purpose raises the renegotiation-needed signal, moves the
record to rejected-pending-reuse, and the next generated offer reuses
the same identifier with rejected = false. -/
theorem c3_rejected_slot_lifecycle (s : Slot) (m : String)
    (hst : s.state = SlotState.rejectedInactive) (hm : s.mid = some m) :
    (∀ evs : List SlotEvent, SlotEvent.createPurpose ∉ evs →
        (slotRun s evs).state = SlotState.rejectedInactive ∧
          offerSection (slotRun s evs) = some (m, true)) ∧
      ((slotStep s SlotEvent.createPurpose).negNeeded = true ∧
        (slotStep s SlotEvent.createPurpose).state = SlotState.rejectedPendingReuse ∧
        offerSection (slotStep s SlotEvent.createPurpose) = some (m, false)) := by
  have key : ∀ evs : List SlotEvent, SlotEvent.createPurpose ∉ evs →
      ∀ s2 : Slot, s2.state = SlotState.rejectedInactive → s2.mid = some m →
      (slotRun s2 evs).state = SlotState.rejectedInactive ∧
        (slotRun s2 evs).mid = some m := by
    intro evs
    induction evs with
    | nil => intro _ s2 h1 h2; exact ⟨h1, h2⟩
    | cons e rest ih =>
      intro hni s2 h1 h2
      have hnr : SlotEvent.createPurpose ∉ rest :=
        fun hr => hni (List.mem_cons_of_mem _ hr)
      have hne : e ≠ SlotEvent.createPurpose := by
        intro he
        exact hni (by rw [he]; exact List.mem_cons_self _ _)
      have hstep : (slotStep s2 e).state = SlotState.rejectedInactive ∧
          (slotStep s2 e).mid = some m := by
        cases e with
        | createPurpose => exact absurd rfl hne
        | remoteReject => constructor <;> simp [slotStep, h1, h2]
        | genOffer => constructor <;> simp [slotStep, h1, h2]
      exact ih hnr (slotStep s2 e) hstep.1 hstep.2
  constructor
  · intro evs hn
    obtain ⟨h1, h2⟩ := key evs hn s hst hm
    exact ⟨h1, by simp [offerSection, h1, h2]⟩
  · refine ⟨?_, ?_, ?_⟩ <;> simp [slotStep, offerSection, hst, hm]

/-- Claim C3, witness: the theorem applied at the rejected data-channel
slot of tests `RejectedDataChannelsDoNotGetReoffered` and
`RejectedDataChannelsDoGetReofferedWhenActive` — two further offers
without a new data channel keep re-offering mid 0 rejected; creating a
new data channel fires renegotiation-needed and the next offer reuses
mid 0 non-rejected. -/
theorem c3_witness :
    ((slotRun slotExC3 [SlotEvent.genOffer, SlotEvent.genOffer]).state =
        SlotState.rejectedInactive ∧
      offerSection (slotRun slotExC3 [SlotEvent.genOffer, SlotEvent.genOffer]) =
        some ("0", true)) ∧
      ((slotStep slotExC3 SlotEvent.createPurpose).negNeeded = true ∧
        (slotStep slotExC3 SlotEvent.createPurpose).state =
          SlotState.rejectedPendingReuse ∧
        offerSection (slotStep slotExC3 SlotEvent.createPurpose) =
          some ("0", false)) :=
  ⟨(c3_rejected_slot_lifecycle slotExC3 "0" rfl rfl).1
      [SlotEvent.genOffer, SlotEvent.genOffer] (by decide),
   (c3_rejected_slot_lifecycle slotExC3 "0" rfl rfl).2⟩
